import Mathlib

/-!
Verification of the system-state summary endpoint of the sui-rest-api crate
(src/crates/sui-rest-api/src/system.rs): the request handler, the projection
from the internal system-state summary to the external wire type, and the
numeric encoding rules of the wire type.

Machine integers (u64, u16) are embedded as Nat: the code performs no
arithmetic on them, only copying, so no overflow can occur. Byte buffers are
embedded as List Nat. A Rust panic (from .unwrap()) is embedded as Option.none
of the enclosing conversion; a typed request error is a RestError value in the
Except error channel, so the two failure modes stay distinguishable.
-/

namespace SuiSystem

/-- Modelled from the spec: the internal address type
(sui_types SuiAddress), an opaque fixed-size byte wrapper. Only its bytes
cross the conversion, so it is embedded as a byte-list wrapper. -/
structure SuiAddress where
  bytes : List Nat
  deriving DecidableEq

/-- Modelled from the spec: the external address type (sui_sdk2 Address).
The conversion from SuiAddress is, per the spec, an injective byte-preserving
transform: same underlying bytes, different wrapper type. -/
structure Address where
  bytes : List Nat
  deriving DecidableEq

/-- Modelled from the spec: the internal object identifier type
(sui_types ObjectID), an opaque byte wrapper. -/
structure ObjectID where
  bytes : List Nat
  deriving DecidableEq

/-- Modelled from the spec: the external object identifier type
(sui_sdk2 ObjectId). -/
structure ObjectId where
  bytes : List Nat
  deriving DecidableEq

/-- Modelled from the spec: the byte-preserving Into conversion from the
internal to the external address type (never truncated or re-hashed). -/
def suiAddressInto (a : SuiAddress) : Address := ⟨a.bytes⟩

/-- Modelled from the spec: the byte-preserving Into conversion from the
internal to the external object-identifier type. -/
def objectIdInto (o : ObjectID) : ObjectId := ⟨o.bytes⟩

/-- Modelled from the spec: a typed BLS12-381 public key
(sui_sdk2 Bls12381PublicKey), a wrapper around a 48-byte buffer. -/
structure Bls12381PublicKey where
  bytes : List Nat
  deriving DecidableEq

/-- Modelled from the spec: a typed Ed25519 public key
(sui_sdk2 Ed25519PublicKey), a wrapper around a 32-byte buffer. -/
structure Ed25519PublicKey where
  bytes : List Nat
  deriving DecidableEq

/-- Modelled from the spec: decoding raw bytes into a typed BLS12-381 public
key fails exactly on malformed byte length (the key type is a fixed-size
48-byte wrapper, so length is the decodable-form condition). -/
def Bls12381PublicKey.from_bytes (b : List Nat) : Option Bls12381PublicKey :=
  if b.length = 48 then some ⟨b⟩ else none

/-- Modelled from the spec: decoding raw bytes into a typed Ed25519 public
key fails exactly on malformed byte length (32 bytes). -/
def Ed25519PublicKey.from_bytes (b : List Nat) : Option Ed25519PublicKey :=
  if b.length = 32 then some ⟨b⟩ else none

/-- The internal per-validator record
(sui_types SuiValidatorSummary). The field list is exactly the
exhaustive destructuring pattern of the From impl in system.rs (lines
245-285); field types are the internal representations the spec describes:
raw key bytes, optional next-epoch fields, u64 counters. -/
structure SuiValidatorSummary where
  sui_address : SuiAddress
  protocol_pubkey_bytes : List Nat
  network_pubkey_bytes : List Nat
  worker_pubkey_bytes : List Nat
  proof_of_possession_bytes : List Nat
  name : String
  description : String
  image_url : String
  project_url : String
  net_address : String
  p2p_address : String
  primary_address : String
  worker_address : String
  next_epoch_protocol_pubkey_bytes : Option (List Nat)
  next_epoch_proof_of_possession : Option (List Nat)
  next_epoch_network_pubkey_bytes : Option (List Nat)
  next_epoch_worker_pubkey_bytes : Option (List Nat)
  next_epoch_net_address : Option String
  next_epoch_p2p_address : Option String
  next_epoch_primary_address : Option String
  next_epoch_worker_address : Option String
  voting_power : Nat
  operation_cap_id : ObjectID
  gas_price : Nat
  commission_rate : Nat
  next_epoch_stake : Nat
  next_epoch_gas_price : Nat
  next_epoch_commission_rate : Nat
  staking_pool_id : ObjectID
  staking_pool_activation_epoch : Option Nat
  staking_pool_deactivation_epoch : Option Nat
  staking_pool_sui_balance : Nat
  rewards_pool : Nat
  pool_token_balance : Nat
  pending_stake : Nat
  pending_total_sui_withdraw : Nat
  pending_pool_token_withdraw : Nat
  exchange_rates_id : ObjectID
  exchange_rates_size : Nat
  deriving DecidableEq

/-- The external (REST) per-validator record, from system.rs lines 165-237:
all inner structures flattened to top-level fields, key bytes decoded into
typed key objects. -/
structure ValidatorSummary where
  address : Address
  protocol_public_key : Bls12381PublicKey
  network_public_key : Ed25519PublicKey
  worker_public_key : Ed25519PublicKey
  proof_of_possession_bytes : List Nat
  name : String
  description : String
  image_url : String
  project_url : String
  net_address : String
  p2p_address : String
  primary_address : String
  worker_address : String
  next_epoch_protocol_public_key : Option Bls12381PublicKey
  next_epoch_network_public_key : Option Ed25519PublicKey
  next_epoch_worker_public_key : Option Ed25519PublicKey
  next_epoch_proof_of_possession : Option (List Nat)
  next_epoch_net_address : Option String
  next_epoch_p2p_address : Option String
  next_epoch_primary_address : Option String
  next_epoch_worker_address : Option String
  voting_power : Nat
  operation_cap_id : ObjectId
  gas_price : Nat
  commission_rate : Nat
  next_epoch_stake : Nat
  next_epoch_gas_price : Nat
  next_epoch_commission_rate : Nat
  staking_pool_id : ObjectId
  staking_pool_activation_epoch : Option Nat
  staking_pool_deactivation_epoch : Option Nat
  staking_pool_sui_balance : Nat
  rewards_pool : Nat
  pool_token_balance : Nat
  pending_stake : Nat
  pending_total_sui_withdraw : Nat
  pending_pool_token_withdraw : Nat
  exchange_rates_id : ObjectId
  exchange_rates_size : Nat
  deriving DecidableEq

/-- Embedding of an optional key decode of the form
opt.map (fun bytes => from_bytes(bytes).unwrap()): an absent input stays
absent, a present input is decoded, and a decode failure is a panic of the
whole conversion (none of the outer Option). -/
def mapKeyOrPanic {κ : Type} (f : List Nat → Option κ) :
    Option (List Nat) → Option (Option κ)
  | none => some none
  | some b =>
    match f b with
    | none => none
    | some k => some (some k)

/-- The From impl converting SuiValidatorSummary to ValidatorSummary
(system.rs lines 239-337). Each of the three current-epoch keys and each
present next-epoch key is decoded with .unwrap(); a decode failure panics,
embedded as none. All other fields are moved through unchanged (addresses
and object ids via the byte-preserving Into). -/
def convertValidator (v : SuiValidatorSummary) : Option ValidatorSummary :=
  match Bls12381PublicKey.from_bytes v.protocol_pubkey_bytes with
  | none => none
  | some protocolKey =>
  match Ed25519PublicKey.from_bytes v.network_pubkey_bytes with
  | none => none
  | some networkKey =>
  match Ed25519PublicKey.from_bytes v.worker_pubkey_bytes with
  | none => none
  | some workerKey =>
  match mapKeyOrPanic Bls12381PublicKey.from_bytes v.next_epoch_protocol_pubkey_bytes with
  | none => none
  | some nextProtocolKey =>
  match mapKeyOrPanic Ed25519PublicKey.from_bytes v.next_epoch_network_pubkey_bytes with
  | none => none
  | some nextNetworkKey =>
  match mapKeyOrPanic Ed25519PublicKey.from_bytes v.next_epoch_worker_pubkey_bytes with
  | none => none
  | some nextWorkerKey =>
  some
    { address := suiAddressInto v.sui_address
      protocol_public_key := protocolKey
      network_public_key := networkKey
      worker_public_key := workerKey
      proof_of_possession_bytes := v.proof_of_possession_bytes
      name := v.name
      description := v.description
      image_url := v.image_url
      project_url := v.project_url
      net_address := v.net_address
      p2p_address := v.p2p_address
      primary_address := v.primary_address
      worker_address := v.worker_address
      next_epoch_protocol_public_key := nextProtocolKey
      next_epoch_network_public_key := nextNetworkKey
      next_epoch_worker_public_key := nextWorkerKey
      next_epoch_proof_of_possession := v.next_epoch_proof_of_possession
      next_epoch_net_address := v.next_epoch_net_address
      next_epoch_p2p_address := v.next_epoch_p2p_address
      next_epoch_primary_address := v.next_epoch_primary_address
      next_epoch_worker_address := v.next_epoch_worker_address
      voting_power := v.voting_power
      operation_cap_id := objectIdInto v.operation_cap_id
      gas_price := v.gas_price
      commission_rate := v.commission_rate
      next_epoch_stake := v.next_epoch_stake
      next_epoch_gas_price := v.next_epoch_gas_price
      next_epoch_commission_rate := v.next_epoch_commission_rate
      staking_pool_id := objectIdInto v.staking_pool_id
      staking_pool_activation_epoch := v.staking_pool_activation_epoch
      staking_pool_deactivation_epoch := v.staking_pool_deactivation_epoch
      staking_pool_sui_balance := v.staking_pool_sui_balance
      rewards_pool := v.rewards_pool
      pool_token_balance := v.pool_token_balance
      pending_stake := v.pending_stake
      pending_total_sui_withdraw := v.pending_total_sui_withdraw
      pending_pool_token_withdraw := v.pending_pool_token_withdraw
      exchange_rates_id := objectIdInto v.exchange_rates_id
      exchange_rates_size := v.exchange_rates_size }

/-- The internal system-state record
(sui_types SuiSystemStateSummary). The field list is exactly the exhaustive
destructuring pattern of the From impl in system.rs (lines 345-383). -/
structure SuiSystemStateSummary where
  epoch : Nat
  protocol_version : Nat
  system_state_version : Nat
  storage_fund_total_object_storage_rebates : Nat
  storage_fund_non_refundable_balance : Nat
  reference_gas_price : Nat
  safe_mode : Bool
  safe_mode_storage_rewards : Nat
  safe_mode_computation_rewards : Nat
  safe_mode_storage_rebates : Nat
  safe_mode_non_refundable_storage_fee : Nat
  epoch_start_timestamp_ms : Nat
  epoch_duration_ms : Nat
  stake_subsidy_start_epoch : Nat
  max_validator_count : Nat
  min_validator_joining_stake : Nat
  validator_low_stake_threshold : Nat
  validator_very_low_stake_threshold : Nat
  validator_low_stake_grace_period : Nat
  stake_subsidy_balance : Nat
  stake_subsidy_distribution_counter : Nat
  stake_subsidy_current_distribution_amount : Nat
  stake_subsidy_period_length : Nat
  stake_subsidy_decrease_rate : Nat
  total_stake : Nat
  active_validators : List SuiValidatorSummary
  pending_active_validators_id : ObjectID
  pending_active_validators_size : Nat
  pending_removals : List Nat
  staking_pool_mappings_id : ObjectID
  staking_pool_mappings_size : Nat
  inactive_pools_id : ObjectID
  inactive_pools_size : Nat
  validator_candidates_id : ObjectID
  validator_candidates_size : Nat
  at_risk_validators : List (SuiAddress × Nat)
  validator_report_records : List (SuiAddress × List SuiAddress)
  deriving DecidableEq

/-- The external (REST) system-state record, from system.rs lines 31-159. -/
structure SystemStateSummary where
  epoch : Nat
  protocol_version : Nat
  system_state_version : Nat
  storage_fund_total_object_storage_rebates : Nat
  storage_fund_non_refundable_balance : Nat
  reference_gas_price : Nat
  safe_mode : Bool
  safe_mode_storage_rewards : Nat
  safe_mode_computation_rewards : Nat
  safe_mode_storage_rebates : Nat
  safe_mode_non_refundable_storage_fee : Nat
  epoch_start_timestamp_ms : Nat
  epoch_duration_ms : Nat
  stake_subsidy_start_epoch : Nat
  max_validator_count : Nat
  min_validator_joining_stake : Nat
  validator_low_stake_threshold : Nat
  validator_very_low_stake_threshold : Nat
  validator_low_stake_grace_period : Nat
  stake_subsidy_balance : Nat
  stake_subsidy_distribution_counter : Nat
  stake_subsidy_current_distribution_amount : Nat
  stake_subsidy_period_length : Nat
  stake_subsidy_decrease_rate : Nat
  total_stake : Nat
  active_validators : List ValidatorSummary
  pending_active_validators_id : ObjectId
  pending_active_validators_size : Nat
  pending_removals : List Nat
  staking_pool_mappings_id : ObjectId
  staking_pool_mappings_size : Nat
  inactive_pools_id : ObjectId
  inactive_pools_size : Nat
  validator_candidates_id : ObjectId
  validator_candidates_size : Nat
  at_risk_validators : List (Address × Nat)
  validator_report_records : List (Address × List Address)
  deriving DecidableEq

/-- Embedding of iter().map(conversion).collect() where the per-element
conversion may panic: the first panicking element aborts the whole
collection (none), otherwise the results are collected in order. -/
def mapOpt {α β : Type} (f : α → Option β) : List α → Option (List β)
  | [] => some []
  | x :: rest =>
    match f x with
    | none => none
    | some y =>
      match mapOpt f rest with
      | none => none
      | some ys => some (y :: ys)

/-- The From impl converting SuiSystemStateSummary to SystemStateSummary
(system.rs lines 339-436): scalar fields move through unchanged, the
active-validator list is converted element-wise, object ids via Into, and
the two address-keyed pair lists pair-wise. A panic inside any element
conversion is a panic of the whole projection (none). -/
def systemConvert (s : SuiSystemStateSummary) : Option SystemStateSummary :=
  match mapOpt convertValidator s.active_validators with
  | none => none
  | some validators =>
  some
    { epoch := s.epoch
      protocol_version := s.protocol_version
      system_state_version := s.system_state_version
      storage_fund_total_object_storage_rebates :=
        s.storage_fund_total_object_storage_rebates
      storage_fund_non_refundable_balance := s.storage_fund_non_refundable_balance
      reference_gas_price := s.reference_gas_price
      safe_mode := s.safe_mode
      safe_mode_storage_rewards := s.safe_mode_storage_rewards
      safe_mode_computation_rewards := s.safe_mode_computation_rewards
      safe_mode_storage_rebates := s.safe_mode_storage_rebates
      safe_mode_non_refundable_storage_fee :=
        s.safe_mode_non_refundable_storage_fee
      epoch_start_timestamp_ms := s.epoch_start_timestamp_ms
      epoch_duration_ms := s.epoch_duration_ms
      stake_subsidy_start_epoch := s.stake_subsidy_start_epoch
      max_validator_count := s.max_validator_count
      min_validator_joining_stake := s.min_validator_joining_stake
      validator_low_stake_threshold := s.validator_low_stake_threshold
      validator_very_low_stake_threshold := s.validator_very_low_stake_threshold
      validator_low_stake_grace_period := s.validator_low_stake_grace_period
      stake_subsidy_balance := s.stake_subsidy_balance
      stake_subsidy_distribution_counter := s.stake_subsidy_distribution_counter
      stake_subsidy_current_distribution_amount :=
        s.stake_subsidy_current_distribution_amount
      stake_subsidy_period_length := s.stake_subsidy_period_length
      stake_subsidy_decrease_rate := s.stake_subsidy_decrease_rate
      total_stake := s.total_stake
      active_validators := validators
      pending_active_validators_id := objectIdInto s.pending_active_validators_id
      pending_active_validators_size := s.pending_active_validators_size
      pending_removals := s.pending_removals
      staking_pool_mappings_id := objectIdInto s.staking_pool_mappings_id
      staking_pool_mappings_size := s.staking_pool_mappings_size
      inactive_pools_id := objectIdInto s.inactive_pools_id
      inactive_pools_size := s.inactive_pools_size
      validator_candidates_id := objectIdInto s.validator_candidates_id
      validator_candidates_size := s.validator_candidates_size
      at_risk_validators :=
        s.at_risk_validators.map (fun p => (suiAddressInto p.1, p.2))
      validator_report_records :=
        s.validator_report_records.map
          (fun p => (suiAddressInto p.1, p.2.map suiAddressInto)) }

/-- Modelled from the spec: the accepted response encodings the
content-negotiation layer can report — the supported structured-text (JSON)
encoding and the compact binary (BCS) alternative. -/
inductive AcceptFormat where
  | json
  | bcs
  deriving DecidableEq

/-- The REST error type: a status code and a message, built by
RestError::new(status, message) in the handler. -/
structure RestError where
  status : Nat
  message : String
  deriving DecidableEq

/-- Constructor matching RestError::new in system.rs. -/
def RestError.new (status : Nat) (message : String) : RestError :=
  ⟨status, message⟩

/-- The axum Json response wrapper around a payload. -/
structure JsonBody (α : Type) where
  value : α
  deriving DecidableEq

/-- The request handler (system.rs lines 10-27). The State Provider read
composed with the projection — state.get_system_state_summary() — is passed
as the already-determined result of that call, so the handler's output being
independent of it expresses that the read is never invoked. A non-JSON accept
format is rejected with a 400 RestError before the state result is examined;
on JSON the provider result is propagated by the question-mark operator
unchanged and a success is wrapped in Json. -/
def get_system_state_summary (accept : AcceptFormat)
    (state : Except RestError SystemStateSummary) :
    Except RestError (JsonBody SystemStateSummary) :=
  match accept with
  | AcceptFormat.json =>
    match state with
    | Except.error e => Except.error e
    | Except.ok summary => Except.ok ⟨summary⟩
  | _ => Except.error (RestError.new 400 "invalid accept type")

/-! ### The structured-text (JSON) encoding of the wire types

The encoding below models the serde serialization of the two wire structs:
which fields are emitted under which name, and — the content of the encoding
claims — which integer fields are routed through the decimal-string BigInt
encoding versus emitted as native number literals. -/

/-- A structured-text (JSON) value. -/
inductive Jv where
  | null
  | bool (b : Bool)
  | num (n : Nat)
  | str (s : String)
  | arr (xs : List Jv)
  | obj (fields : List (String × Jv))

/-- The decimal digit d (d below 10) as a character. -/
def decDigitChar (d : Nat) : Char := Char.ofNat (48 + d)

/-- Parse one decimal digit character back to its value. -/
def decCharDigit (c : Char) : Option Nat :=
  if 48 ≤ c.toNat ∧ c.toNat ≤ 57 then some (c.toNat - 48) else none

/-- Modelled from the spec: the BigInt u64 serde helper
(sui_types sui_serde BigInt) serializes a u64 as its decimal string —
u64::to_string. Digits most-significant first; zero is the string 0. -/
def u64ToDecimalString (n : Nat) : String :=
  if n = 0 then "0"
  else String.mk (((Nat.digits 10 n).map decDigitChar).reverse)

/-- Modelled from the spec: decoding a decimal string back to the integer it
denotes — the client-side inverse of the BigInt encoding. Fails on an empty
string or any non-digit character. -/
def decodeDecimal (s : String) : Option Nat :=
  if s.data.isEmpty then none
  else
    match mapOpt decCharDigit s.data with
    | none => none
    | some ds => some (Nat.ofDigits 10 ds.reverse)

/-- One hexadecimal digit character (lowercase). -/
def hexDigitChar (d : Nat) : Char :=
  if d < 10 then Char.ofNat (48 + d) else Char.ofNat (87 + d)

/-- Bytes to lowercase hexadecimal characters, two per byte. -/
def hexOfBytes : List Nat → List Char
  | [] => []
  | b :: rest => hexDigitChar (b / 16) :: hexDigitChar (b % 16) :: hexOfBytes rest

/-- Modelled from the spec: addresses and object identifiers serialize in
the structured-text encoding as 0x-prefixed hexadecimal strings. -/
def hexString (bytes : List Nat) : String :=
  String.mk ('0' :: 'x' :: hexOfBytes bytes)

/-- The base64 alphabet character of an index below 64. -/
def base64Char (n : Nat) : Char :=
  if n < 26 then Char.ofNat (65 + n)
  else if n < 52 then Char.ofNat (97 + (n - 26))
  else if n < 62 then Char.ofNat (48 + (n - 52))
  else if n = 62 then '+'
  else '/'

/-- Standard base64 of a byte list, with trailing = padding. -/
def base64Encode : List Nat → List Char
  | [] => []
  | [a] =>
    [base64Char (a / 4 % 64), base64Char (a % 4 * 16), '=', '=']
  | [a, b] =>
    [base64Char (a / 4 % 64), base64Char (a % 4 * 16 + b / 16),
     base64Char (b % 16 * 4), '=']
  | a :: b :: c :: rest =>
    base64Char (a / 4 % 64) :: base64Char (a % 4 * 16 + b / 16) ::
      base64Char (b % 16 * 4 + c / 64) :: base64Char (c % 64) ::
      base64Encode rest

/-- Modelled from the spec: fixed-size byte buffers not already represented
as a higher-level key type are encoded as standard base64 text. -/
def base64String (bytes : List Nat) : String :=
  String.mk (base64Encode bytes)

/-- Serde encoding of an optional field: an absent value is the explicit
no-value marker (null), never a zero or empty-string coercion. -/
def jsonOfOption {α : Type} (f : α → Jv) : Option α → Jv
  | none => Jv.null
  | some a => f a

/-- The serde serialization of the external ValidatorSummary (system.rs
lines 163-237): field names and order as declared; every u64 field is
annotated with the BigInt serde helper and so emitted as a decimal string;
key types as base64 strings; proof-of-possession byte buffers as base64;
optional fields as null when absent. -/
def jsonOfValidator (v : ValidatorSummary) : Jv :=
  Jv.obj
    [("address", Jv.str (hexString v.address.bytes)),
     ("protocol_public_key", Jv.str (base64String v.protocol_public_key.bytes)),
     ("network_public_key", Jv.str (base64String v.network_public_key.bytes)),
     ("worker_public_key", Jv.str (base64String v.worker_public_key.bytes)),
     ("proof_of_possession_bytes", Jv.str (base64String v.proof_of_possession_bytes)),
     ("name", Jv.str v.name),
     ("description", Jv.str v.description),
     ("image_url", Jv.str v.image_url),
     ("project_url", Jv.str v.project_url),
     ("net_address", Jv.str v.net_address),
     ("p2p_address", Jv.str v.p2p_address),
     ("primary_address", Jv.str v.primary_address),
     ("worker_address", Jv.str v.worker_address),
     ("next_epoch_protocol_public_key",
      jsonOfOption (fun k => Jv.str (base64String k.bytes)) v.next_epoch_protocol_public_key),
     ("next_epoch_network_public_key",
      jsonOfOption (fun k => Jv.str (base64String k.bytes)) v.next_epoch_network_public_key),
     ("next_epoch_worker_public_key",
      jsonOfOption (fun k => Jv.str (base64String k.bytes)) v.next_epoch_worker_public_key),
     ("next_epoch_proof_of_possession",
      jsonOfOption (fun b => Jv.str (base64String b)) v.next_epoch_proof_of_possession),
     ("next_epoch_net_address", jsonOfOption Jv.str v.next_epoch_net_address),
     ("next_epoch_p2p_address", jsonOfOption Jv.str v.next_epoch_p2p_address),
     ("next_epoch_primary_address", jsonOfOption Jv.str v.next_epoch_primary_address),
     ("next_epoch_worker_address", jsonOfOption Jv.str v.next_epoch_worker_address),
     ("voting_power", Jv.str (u64ToDecimalString v.voting_power)),
     ("operation_cap_id", Jv.str (hexString v.operation_cap_id.bytes)),
     ("gas_price", Jv.str (u64ToDecimalString v.gas_price)),
     ("commission_rate", Jv.str (u64ToDecimalString v.commission_rate)),
     ("next_epoch_stake", Jv.str (u64ToDecimalString v.next_epoch_stake)),
     ("next_epoch_gas_price", Jv.str (u64ToDecimalString v.next_epoch_gas_price)),
     ("next_epoch_commission_rate", Jv.str (u64ToDecimalString v.next_epoch_commission_rate)),
     ("staking_pool_id", Jv.str (hexString v.staking_pool_id.bytes)),
     ("staking_pool_activation_epoch",
      jsonOfOption (fun n => Jv.str (u64ToDecimalString n)) v.staking_pool_activation_epoch),
     ("staking_pool_deactivation_epoch",
      jsonOfOption (fun n => Jv.str (u64ToDecimalString n)) v.staking_pool_deactivation_epoch),
     ("staking_pool_sui_balance", Jv.str (u64ToDecimalString v.staking_pool_sui_balance)),
     ("rewards_pool", Jv.str (u64ToDecimalString v.rewards_pool)),
     ("pool_token_balance", Jv.str (u64ToDecimalString v.pool_token_balance)),
     ("pending_stake", Jv.str (u64ToDecimalString v.pending_stake)),
     ("pending_total_sui_withdraw", Jv.str (u64ToDecimalString v.pending_total_sui_withdraw)),
     ("pending_pool_token_withdraw", Jv.str (u64ToDecimalString v.pending_pool_token_withdraw)),
     ("exchange_rates_id", Jv.str (hexString v.exchange_rates_id.bytes)),
     ("exchange_rates_size", Jv.str (u64ToDecimalString v.exchange_rates_size))]

/-- The serde serialization of the external SystemStateSummary (system.rs
lines 29-159): every u64 field carries the BigInt decimal-string annotation;
the single u16 field stake_subsidy_decrease_rate carries no annotation and
is emitted as a native number; pending_removals elements and at_risk
counts are decimal strings per their Vec-level BigInt annotations; pair
lists serialize as arrays of two-element arrays. -/
def jsonOfSystem (s : SystemStateSummary) : Jv :=
  Jv.obj
    [("epoch", Jv.str (u64ToDecimalString s.epoch)),
     ("protocol_version", Jv.str (u64ToDecimalString s.protocol_version)),
     ("system_state_version", Jv.str (u64ToDecimalString s.system_state_version)),
     ("storage_fund_total_object_storage_rebates",
      Jv.str (u64ToDecimalString s.storage_fund_total_object_storage_rebates)),
     ("storage_fund_non_refundable_balance",
      Jv.str (u64ToDecimalString s.storage_fund_non_refundable_balance)),
     ("reference_gas_price", Jv.str (u64ToDecimalString s.reference_gas_price)),
     ("safe_mode", Jv.bool s.safe_mode),
     ("safe_mode_storage_rewards", Jv.str (u64ToDecimalString s.safe_mode_storage_rewards)),
     ("safe_mode_computation_rewards",
      Jv.str (u64ToDecimalString s.safe_mode_computation_rewards)),
     ("safe_mode_storage_rebates", Jv.str (u64ToDecimalString s.safe_mode_storage_rebates)),
     ("safe_mode_non_refundable_storage_fee",
      Jv.str (u64ToDecimalString s.safe_mode_non_refundable_storage_fee)),
     ("epoch_start_timestamp_ms", Jv.str (u64ToDecimalString s.epoch_start_timestamp_ms)),
     ("epoch_duration_ms", Jv.str (u64ToDecimalString s.epoch_duration_ms)),
     ("stake_subsidy_start_epoch", Jv.str (u64ToDecimalString s.stake_subsidy_start_epoch)),
     ("max_validator_count", Jv.str (u64ToDecimalString s.max_validator_count)),
     ("min_validator_joining_stake",
      Jv.str (u64ToDecimalString s.min_validator_joining_stake)),
     ("validator_low_stake_threshold",
      Jv.str (u64ToDecimalString s.validator_low_stake_threshold)),
     ("validator_very_low_stake_threshold",
      Jv.str (u64ToDecimalString s.validator_very_low_stake_threshold)),
     ("validator_low_stake_grace_period",
      Jv.str (u64ToDecimalString s.validator_low_stake_grace_period)),
     ("stake_subsidy_balance", Jv.str (u64ToDecimalString s.stake_subsidy_balance)),
     ("stake_subsidy_distribution_counter",
      Jv.str (u64ToDecimalString s.stake_subsidy_distribution_counter)),
     ("stake_subsidy_current_distribution_amount",
      Jv.str (u64ToDecimalString s.stake_subsidy_current_distribution_amount)),
     ("stake_subsidy_period_length",
      Jv.str (u64ToDecimalString s.stake_subsidy_period_length)),
     ("stake_subsidy_decrease_rate", Jv.num s.stake_subsidy_decrease_rate),
     ("total_stake", Jv.str (u64ToDecimalString s.total_stake)),
     ("active_validators", Jv.arr (s.active_validators.map jsonOfValidator)),
     ("pending_active_validators_id",
      Jv.str (hexString s.pending_active_validators_id.bytes)),
     ("pending_active_validators_size",
      Jv.str (u64ToDecimalString s.pending_active_validators_size)),
     ("pending_removals",
      Jv.arr (s.pending_removals.map (fun n => Jv.str (u64ToDecimalString n)))),
     ("staking_pool_mappings_id", Jv.str (hexString s.staking_pool_mappings_id.bytes)),
     ("staking_pool_mappings_size",
      Jv.str (u64ToDecimalString s.staking_pool_mappings_size)),
     ("inactive_pools_id", Jv.str (hexString s.inactive_pools_id.bytes)),
     ("inactive_pools_size", Jv.str (u64ToDecimalString s.inactive_pools_size)),
     ("validator_candidates_id", Jv.str (hexString s.validator_candidates_id.bytes)),
     ("validator_candidates_size",
      Jv.str (u64ToDecimalString s.validator_candidates_size)),
     ("at_risk_validators",
      Jv.arr (s.at_risk_validators.map
        (fun p => Jv.arr [Jv.str (hexString p.1.bytes),
                          Jv.str (u64ToDecimalString p.2)]))),
     ("validator_report_records",
      Jv.arr (s.validator_report_records.map
        (fun p => Jv.arr [Jv.str (hexString p.1.bytes),
                          Jv.arr (p.2.map (fun a => Jv.str (hexString a.bytes)))])))]

/-- Look a field up in an object field list by exact name. -/
def lookupField : List (String × Jv) → String → Option Jv
  | [], _ => none
  | (k, v) :: rest, key => if k = key then some v else lookupField rest key

/-- The value of a named field of an object value. -/
def getField (j : Jv) (key : String) : Option Jv :=
  match j with
  | Jv.obj fields => lookupField fields key
  | _ => none

/-- Decode a named field that is required to be a decimal-string-encoded
u64: returns none if the field is missing or is not a string (in particular
if it is a native number literal). -/
def decodeU64Field (j : Jv) (key : String) : Option Nat :=
  match getField j key with
  | some (Jv.str s) => decodeDecimal s
  | _ => none

/-- Whether a structured-text value is a native number literal. -/
def Jv.isNum : Jv → Bool
  | Jv.num _ => true
  | _ => false

/-! ### Concrete sample values used by the witness theorems -/

/-- A well-formed internal validator record with every next-epoch field
absent (no change scheduled). -/
def exValidator : SuiValidatorSummary where
  sui_address := ⟨List.replicate 32 7⟩
  protocol_pubkey_bytes := List.replicate 48 1
  network_pubkey_bytes := List.replicate 32 2
  worker_pubkey_bytes := List.replicate 32 3
  proof_of_possession_bytes := [9, 8, 7]
  name := "v"
  description := "d"
  image_url := "i"
  project_url := "p"
  net_address := "na"
  p2p_address := "pa"
  primary_address := "pr"
  worker_address := "wa"
  next_epoch_protocol_pubkey_bytes := none
  next_epoch_proof_of_possession := none
  next_epoch_network_pubkey_bytes := none
  next_epoch_worker_pubkey_bytes := none
  next_epoch_net_address := none
  next_epoch_p2p_address := none
  next_epoch_primary_address := none
  next_epoch_worker_address := none
  voting_power := 1
  operation_cap_id := ⟨[1]⟩
  gas_price := 2
  commission_rate := 3
  next_epoch_stake := 4
  next_epoch_gas_price := 5
  next_epoch_commission_rate := 6
  staking_pool_id := ⟨[2]⟩
  staking_pool_activation_epoch := some 0
  staking_pool_deactivation_epoch := none
  staking_pool_sui_balance := 7
  rewards_pool := 8
  pool_token_balance := 9
  pending_stake := 10
  pending_total_sui_withdraw := 11
  pending_pool_token_withdraw := 12
  exchange_rates_id := ⟨[3]⟩
  exchange_rates_size := 13

/-- A well-formed internal validator record with every next-epoch field
present. -/
def exValidatorNext : SuiValidatorSummary :=
  { exValidator with
    next_epoch_protocol_pubkey_bytes := some (List.replicate 48 4)
    next_epoch_proof_of_possession := some [5, 5]
    next_epoch_network_pubkey_bytes := some (List.replicate 32 5)
    next_epoch_worker_pubkey_bytes := some (List.replicate 32 6)
    next_epoch_net_address := some "nna"
    next_epoch_p2p_address := some "npa"
    next_epoch_primary_address := some "npr"
    next_epoch_worker_address := some "nwa" }

/-- An internal validator record whose protocol key bytes have length 3,
not the 48 bytes a BLS12-381 public key requires. -/
def exValidatorBadKey : SuiValidatorSummary :=
  { exValidator with protocol_pubkey_bytes := [0, 1, 2] }

/-- The converted external record of exValidator. -/
def exOutValidator : ValidatorSummary :=
  (convertValidator exValidator).get (by decide)

/-- The converted external record of exValidatorNext. -/
def exOutValidatorNext : ValidatorSummary :=
  (convertValidator exValidatorNext).get (by decide)

/-- A well-formed internal system state with two active validators. -/
def exSystem : SuiSystemStateSummary where
  epoch := 42
  protocol_version := 1
  system_state_version := 2
  storage_fund_total_object_storage_rebates := 3
  storage_fund_non_refundable_balance := 4
  reference_gas_price := 5
  safe_mode := true
  safe_mode_storage_rewards := 18446744073709551615
  safe_mode_computation_rewards := 6
  safe_mode_storage_rebates := 7
  safe_mode_non_refundable_storage_fee := 8
  epoch_start_timestamp_ms := 9
  epoch_duration_ms := 10
  stake_subsidy_start_epoch := 11
  max_validator_count := 12
  min_validator_joining_stake := 13
  validator_low_stake_threshold := 14
  validator_very_low_stake_threshold := 15
  validator_low_stake_grace_period := 16
  stake_subsidy_balance := 17
  stake_subsidy_distribution_counter := 18
  stake_subsidy_current_distribution_amount := 19
  stake_subsidy_period_length := 20
  stake_subsidy_decrease_rate := 100
  total_stake := 21
  active_validators := [exValidator, exValidatorNext]
  pending_active_validators_id := ⟨[4]⟩
  pending_active_validators_size := 22
  pending_removals := [0, 1]
  staking_pool_mappings_id := ⟨[5]⟩
  staking_pool_mappings_size := 23
  inactive_pools_id := ⟨[6]⟩
  inactive_pools_size := 24
  validator_candidates_id := ⟨[7]⟩
  validator_candidates_size := 25
  at_risk_validators := [(⟨[8]⟩, 2)]
  validator_report_records := [(⟨[8]⟩, [⟨[9]⟩])]

/-- The converted external record of exSystem. -/
def exOutSystem : SystemStateSummary :=
  (systemConvert exSystem).get (by decide)

/-- exSystem with a stake-subsidy decrease rate of 20000 basis points: a
value a u16 carries without complaint although it exceeds 10000. -/
def exSystem20k : SuiSystemStateSummary :=
  { exSystem with stake_subsidy_decrease_rate := 20000 }

/-- The converted external record of exSystem20k. -/
def exOutSystem20k : SystemStateSummary :=
  { exOutSystem with stake_subsidy_decrease_rate := 20000 }

/-- A sample provider failure, as the provider's own RestError. -/
def exProviderFailure : RestError := RestError.new 500 "state not available"

/-- A second, different sample provider failure. -/
def exProviderFailureB : RestError := RestError.new 404 "no committed state"

/-! ### Helper lemmas -/

theorem bls_from_bytes_some_iff {b : List Nat} {k : Bls12381PublicKey} :
    Bls12381PublicKey.from_bytes b = some k ↔ b.length = 48 ∧ k = ⟨b⟩ := by
  unfold Bls12381PublicKey.from_bytes
  split
  · simp_all [eq_comm]
  · simp_all

theorem ed_from_bytes_some_iff {b : List Nat} {k : Ed25519PublicKey} :
    Ed25519PublicKey.from_bytes b = some k ↔ b.length = 32 ∧ k = ⟨b⟩ := by
  unfold Ed25519PublicKey.from_bytes
  split
  · simp_all [eq_comm]
  · simp_all

theorem bls_from_bytes_none_iff {b : List Nat} :
    Bls12381PublicKey.from_bytes b = none ↔ b.length ≠ 48 := by
  unfold Bls12381PublicKey.from_bytes
  split <;> simp_all

theorem ed_from_bytes_none_iff {b : List Nat} :
    Ed25519PublicKey.from_bytes b = none ↔ b.length ≠ 32 := by
  unfold Ed25519PublicKey.from_bytes
  split <;> simp_all

theorem mapKeyOrPanic_some_isSome {κ : Type} {f : List Nat → Option κ}
    {o : Option (List Nat)} {r : Option κ} (h : mapKeyOrPanic f o = some r) :
    r.isSome = o.isSome := by
  cases o with
  | none => simp [mapKeyOrPanic] at h; subst h; rfl
  | some b =>
    simp only [mapKeyOrPanic] at h
    cases hf : f b with
    | none => rw [hf] at h; exact Option.noConfusion h
    | some k => rw [hf] at h; cases h; rfl

theorem mapKeyOrPanic_some_content {κ : Type} {f : List Nat → Option κ}
    {o : Option (List Nat)} {r : Option κ} (h : mapKeyOrPanic f o = some r) :
    ∀ k, r = some k → ∃ b, o = some b ∧ f b = some k := by
  intro k hk
  cases o with
  | none => simp [mapKeyOrPanic] at h; subst h; exact Option.noConfusion hk
  | some b =>
    simp only [mapKeyOrPanic] at h
    cases hf : f b with
    | none => rw [hf] at h; exact Option.noConfusion h
    | some k2 =>
      rw [hf] at h
      cases h
      cases hk
      exact ⟨b, rfl, hf⟩

theorem mapOpt_some_length {α β : Type} {f : α → Option β} :
    ∀ {l : List α} {r : List β}, mapOpt f l = some r → r.length = l.length := by
  intro l
  induction l with
  | nil => intro r h; simp [mapOpt] at h; subst h; rfl
  | cons a as ih =>
    intro r h
    unfold mapOpt at h
    cases hfa : f a with
    | none => rw [hfa] at h; exact Option.noConfusion h
    | some b =>
      rw [hfa] at h
      cases hrest : mapOpt f as with
      | none => rw [hrest] at h; exact Option.noConfusion h
      | some bs =>
        rw [hrest] at h
        cases h
        simp [ih hrest]

theorem mapOpt_some_get {α β : Type} {f : α → Option β} :
    ∀ {l : List α} {r : List β}, mapOpt f l = some r →
      ∀ i (hi : i < l.length) (ho : i < r.length),
        f (l.get ⟨i, hi⟩) = some (r.get ⟨i, ho⟩) := by
  intro l
  induction l with
  | nil => intro r h i hi ho; exact absurd hi (by simp)
  | cons a as ih =>
    intro r h i hi ho
    unfold mapOpt at h
    cases hfa : f a with
    | none => rw [hfa] at h; exact Option.noConfusion h
    | some b =>
      rw [hfa] at h
      cases hrest : mapOpt f as with
      | none => rw [hrest] at h; exact Option.noConfusion h
      | some bs =>
        rw [hrest] at h
        cases h
        cases i with
        | zero => simpa using hfa
        | succ j =>
          exact ih hrest j (Nat.lt_of_succ_lt_succ hi) (Nat.lt_of_succ_lt_succ ho)

theorem decCharDigit_decDigitChar : ∀ d < 10, decCharDigit (decDigitChar d) = some d := by
  decide

theorem mapOpt_decCharDigit_map {l : List Nat} (hl : ∀ d ∈ l, d < 10) :
    mapOpt decCharDigit (l.map decDigitChar) = some l := by
  induction l with
  | nil => rfl
  | cons a as ih =>
    have ha : decCharDigit (decDigitChar a) = some a :=
      decCharDigit_decDigitChar a (hl a (List.mem_cons_self a as))
    have has : mapOpt decCharDigit (as.map decDigitChar) = some as :=
      ih (fun d hd => hl d (List.mem_cons_of_mem a hd))
    simp [mapOpt, ha, has]

theorem decodeDecimal_u64ToDecimalString (n : Nat) :
    decodeDecimal (u64ToDecimalString n) = some n := by
  by_cases h : n = 0
  · subst h; rfl
  · have hdig : ∀ d ∈ (Nat.digits 10 n).reverse, d < 10 := by
      intro d hd
      exact Nat.digits_lt_base (by norm_num) (List.mem_reverse.mp hd)
    have hne : Nat.digits 10 n ≠ [] := Nat.digits_ne_nil_iff_ne_zero.mpr h
    have hrevne : (Nat.digits 10 n).reverse ≠ [] := by
      simpa using hne
    unfold u64ToDecimalString decodeDecimal
    rw [if_neg h]
    have hdata : (String.mk (((Nat.digits 10 n).map decDigitChar).reverse)).data =
        ((Nat.digits 10 n).reverse).map decDigitChar := by
      simp [List.map_reverse]
    rw [hdata]
    rw [mapOpt_decCharDigit_map hdig]
    have hempty : (((Nat.digits 10 n).reverse).map decDigitChar).isEmpty = false := by
      cases hrev : (Nat.digits 10 n).reverse with
      | nil => exact absurd hrev hrevne
      | cons c cs => simp
    rw [hempty]
    simp [Nat.ofDigits_digits]

theorem mapKeyOrPanic_some_inputs {κ : Type} {f : List Nat → Option κ}
    {o : Option (List Nat)} {r : Option κ} (h : mapKeyOrPanic f o = some r) :
    ∀ b, o = some b → ∃ k, f b = some k ∧ r = some k := by
  intro b hb
  subst hb
  simp only [mapKeyOrPanic] at h
  cases hf : f b with
  | none => rw [hf] at h; exact Option.noConfusion h
  | some k =>
    rw [hf] at h
    cases h
    exact ⟨k, rfl, rfl⟩

/-- Everything the success of the validator conversion guarantees: every
key buffer had a decodable length, every external field is the renamed
corresponding internal field, key objects carry exactly the input bytes,
and presence of each optional next-epoch field is preserved. -/
theorem convertValidator_some_spec {v : SuiValidatorSummary} {out : ValidatorSummary}
    (h : convertValidator v = some out) :
    v.protocol_pubkey_bytes.length = 48 ∧
    v.network_pubkey_bytes.length = 32 ∧
    v.worker_pubkey_bytes.length = 32 ∧
    (∀ b ∈ v.next_epoch_protocol_pubkey_bytes, b.length = 48) ∧
    (∀ b ∈ v.next_epoch_network_pubkey_bytes, b.length = 32) ∧
    (∀ b ∈ v.next_epoch_worker_pubkey_bytes, b.length = 32) ∧
    out.address = suiAddressInto v.sui_address ∧
    out.protocol_public_key.bytes = v.protocol_pubkey_bytes ∧
    out.network_public_key.bytes = v.network_pubkey_bytes ∧
    out.worker_public_key.bytes = v.worker_pubkey_bytes ∧
    out.proof_of_possession_bytes = v.proof_of_possession_bytes ∧
    out.name = v.name ∧
    out.description = v.description ∧
    out.image_url = v.image_url ∧
    out.project_url = v.project_url ∧
    out.net_address = v.net_address ∧
    out.p2p_address = v.p2p_address ∧
    out.primary_address = v.primary_address ∧
    out.worker_address = v.worker_address ∧
    out.next_epoch_protocol_public_key.isSome =
      v.next_epoch_protocol_pubkey_bytes.isSome ∧
    out.next_epoch_network_public_key.isSome =
      v.next_epoch_network_pubkey_bytes.isSome ∧
    out.next_epoch_worker_public_key.isSome =
      v.next_epoch_worker_pubkey_bytes.isSome ∧
    (∀ k, out.next_epoch_protocol_public_key = some k →
      v.next_epoch_protocol_pubkey_bytes = some k.bytes) ∧
    (∀ k, out.next_epoch_network_public_key = some k →
      v.next_epoch_network_pubkey_bytes = some k.bytes) ∧
    (∀ k, out.next_epoch_worker_public_key = some k →
      v.next_epoch_worker_pubkey_bytes = some k.bytes) ∧
    out.next_epoch_proof_of_possession = v.next_epoch_proof_of_possession ∧
    out.next_epoch_net_address = v.next_epoch_net_address ∧
    out.next_epoch_p2p_address = v.next_epoch_p2p_address ∧
    out.next_epoch_primary_address = v.next_epoch_primary_address ∧
    out.next_epoch_worker_address = v.next_epoch_worker_address ∧
    out.voting_power = v.voting_power ∧
    out.operation_cap_id = objectIdInto v.operation_cap_id ∧
    out.gas_price = v.gas_price ∧
    out.commission_rate = v.commission_rate ∧
    out.next_epoch_stake = v.next_epoch_stake ∧
    out.next_epoch_gas_price = v.next_epoch_gas_price ∧
    out.next_epoch_commission_rate = v.next_epoch_commission_rate ∧
    out.staking_pool_id = objectIdInto v.staking_pool_id ∧
    out.staking_pool_activation_epoch = v.staking_pool_activation_epoch ∧
    out.staking_pool_deactivation_epoch = v.staking_pool_deactivation_epoch ∧
    out.staking_pool_sui_balance = v.staking_pool_sui_balance ∧
    out.rewards_pool = v.rewards_pool ∧
    out.pool_token_balance = v.pool_token_balance ∧
    out.pending_stake = v.pending_stake ∧
    out.pending_total_sui_withdraw = v.pending_total_sui_withdraw ∧
    out.pending_pool_token_withdraw = v.pending_pool_token_withdraw ∧
    out.exchange_rates_id = objectIdInto v.exchange_rates_id ∧
    out.exchange_rates_size = v.exchange_rates_size := by
  unfold convertValidator at h
  split at h
  · exact Option.noConfusion h
  rename_i protocolKey hp
  split at h
  · exact Option.noConfusion h
  rename_i networkKey hn
  split at h
  · exact Option.noConfusion h
  rename_i workerKey hw
  split at h
  · exact Option.noConfusion h
  rename_i nextProtocolKey hnp
  split at h
  · exact Option.noConfusion h
  rename_i nextNetworkKey hnn
  split at h
  · exact Option.noConfusion h
  rename_i nextWorkerKey hnw
  cases h
  obtain ⟨hplen, hpk⟩ := bls_from_bytes_some_iff.mp hp
  obtain ⟨hnlen, hnk⟩ := ed_from_bytes_some_iff.mp hn
  obtain ⟨hwlen, hwk⟩ := ed_from_bytes_some_iff.mp hw
  refine ⟨hplen, hnlen, hwlen, ?_, ?_, ?_, rfl, ?_, ?_, ?_, rfl, rfl, rfl, rfl,
    rfl, rfl, rfl, rfl, rfl,
    mapKeyOrPanic_some_isSome hnp, mapKeyOrPanic_some_isSome hnn,
    mapKeyOrPanic_some_isSome hnw, ?_, ?_, ?_, rfl, rfl, rfl, rfl, rfl, rfl,
    rfl, rfl, rfl, rfl, rfl, rfl, rfl, rfl, rfl, rfl, rfl, rfl, rfl, rfl,
    rfl, rfl, rfl⟩
  · intro b hb
    obtain ⟨k, hk, _⟩ := mapKeyOrPanic_some_inputs hnp b hb
    exact (bls_from_bytes_some_iff.mp hk).1
  · intro b hb
    obtain ⟨k, hk, _⟩ := mapKeyOrPanic_some_inputs hnn b hb
    exact (ed_from_bytes_some_iff.mp hk).1
  · intro b hb
    obtain ⟨k, hk, _⟩ := mapKeyOrPanic_some_inputs hnw b hb
    exact (ed_from_bytes_some_iff.mp hk).1
  · rw [hpk]
  · rw [hnk]
  · rw [hwk]
  · intro k hk
    obtain ⟨b, hb, hfb⟩ := mapKeyOrPanic_some_content hnp k hk
    rw [hb, (bls_from_bytes_some_iff.mp hfb).2]
  · intro k hk
    obtain ⟨b, hb, hfb⟩ := mapKeyOrPanic_some_content hnn k hk
    rw [hb, (ed_from_bytes_some_iff.mp hfb).2]
  · intro k hk
    obtain ⟨b, hb, hfb⟩ := mapKeyOrPanic_some_content hnw k hk
    rw [hb, (ed_from_bytes_some_iff.mp hfb).2]

/-- When every key buffer has its scheme's length, the validator conversion
succeeds and produces exactly the flattened, renamed record. -/
theorem convertValidator_eq_some_of_lengths {v : SuiValidatorSummary}
    (h1 : v.protocol_pubkey_bytes.length = 48)
    (h2 : v.network_pubkey_bytes.length = 32)
    (h3 : v.worker_pubkey_bytes.length = 32)
    (h4 : ∀ b ∈ v.next_epoch_protocol_pubkey_bytes, b.length = 48)
    (h5 : ∀ b ∈ v.next_epoch_network_pubkey_bytes, b.length = 32)
    (h6 : ∀ b ∈ v.next_epoch_worker_pubkey_bytes, b.length = 32) :
    convertValidator v = some
      { address := suiAddressInto v.sui_address
        protocol_public_key := ⟨v.protocol_pubkey_bytes⟩
        network_public_key := ⟨v.network_pubkey_bytes⟩
        worker_public_key := ⟨v.worker_pubkey_bytes⟩
        proof_of_possession_bytes := v.proof_of_possession_bytes
        name := v.name
        description := v.description
        image_url := v.image_url
        project_url := v.project_url
        net_address := v.net_address
        p2p_address := v.p2p_address
        primary_address := v.primary_address
        worker_address := v.worker_address
        next_epoch_protocol_public_key :=
          v.next_epoch_protocol_pubkey_bytes.map (fun b => ⟨b⟩)
        next_epoch_network_public_key :=
          v.next_epoch_network_pubkey_bytes.map (fun b => ⟨b⟩)
        next_epoch_worker_public_key :=
          v.next_epoch_worker_pubkey_bytes.map (fun b => ⟨b⟩)
        next_epoch_proof_of_possession := v.next_epoch_proof_of_possession
        next_epoch_net_address := v.next_epoch_net_address
        next_epoch_p2p_address := v.next_epoch_p2p_address
        next_epoch_primary_address := v.next_epoch_primary_address
        next_epoch_worker_address := v.next_epoch_worker_address
        voting_power := v.voting_power
        operation_cap_id := objectIdInto v.operation_cap_id
        gas_price := v.gas_price
        commission_rate := v.commission_rate
        next_epoch_stake := v.next_epoch_stake
        next_epoch_gas_price := v.next_epoch_gas_price
        next_epoch_commission_rate := v.next_epoch_commission_rate
        staking_pool_id := objectIdInto v.staking_pool_id
        staking_pool_activation_epoch := v.staking_pool_activation_epoch
        staking_pool_deactivation_epoch := v.staking_pool_deactivation_epoch
        staking_pool_sui_balance := v.staking_pool_sui_balance
        rewards_pool := v.rewards_pool
        pool_token_balance := v.pool_token_balance
        pending_stake := v.pending_stake
        pending_total_sui_withdraw := v.pending_total_sui_withdraw
        pending_pool_token_withdraw := v.pending_pool_token_withdraw
        exchange_rates_id := objectIdInto v.exchange_rates_id
        exchange_rates_size := v.exchange_rates_size } := by
  have hp : Bls12381PublicKey.from_bytes v.protocol_pubkey_bytes =
      some ⟨v.protocol_pubkey_bytes⟩ := bls_from_bytes_some_iff.mpr ⟨h1, rfl⟩
  have hn : Ed25519PublicKey.from_bytes v.network_pubkey_bytes =
      some ⟨v.network_pubkey_bytes⟩ := ed_from_bytes_some_iff.mpr ⟨h2, rfl⟩
  have hw : Ed25519PublicKey.from_bytes v.worker_pubkey_bytes =
      some ⟨v.worker_pubkey_bytes⟩ := ed_from_bytes_some_iff.mpr ⟨h3, rfl⟩
  have hnp : mapKeyOrPanic Bls12381PublicKey.from_bytes
      v.next_epoch_protocol_pubkey_bytes =
      some (v.next_epoch_protocol_pubkey_bytes.map (fun b => ⟨b⟩)) := by
    cases hb : v.next_epoch_protocol_pubkey_bytes with
    | none => rfl
    | some b =>
      have : b.length = 48 := h4 b (Option.mem_def.mpr hb)
      simp [mapKeyOrPanic, bls_from_bytes_some_iff.mpr ⟨this, rfl⟩]
  have hnn : mapKeyOrPanic Ed25519PublicKey.from_bytes
      v.next_epoch_network_pubkey_bytes =
      some (v.next_epoch_network_pubkey_bytes.map (fun b => ⟨b⟩)) := by
    cases hb : v.next_epoch_network_pubkey_bytes with
    | none => rfl
    | some b =>
      have : b.length = 32 := h5 b (Option.mem_def.mpr hb)
      simp [mapKeyOrPanic, ed_from_bytes_some_iff.mpr ⟨this, rfl⟩]
  have hnw : mapKeyOrPanic Ed25519PublicKey.from_bytes
      v.next_epoch_worker_pubkey_bytes =
      some (v.next_epoch_worker_pubkey_bytes.map (fun b => ⟨b⟩)) := by
    cases hb : v.next_epoch_worker_pubkey_bytes with
    | none => rfl
    | some b =>
      have : b.length = 32 := h6 b (Option.mem_def.mpr hb)
      simp [mapKeyOrPanic, ed_from_bytes_some_iff.mpr ⟨this, rfl⟩]
  unfold convertValidator
  rw [hp, hn, hw, hnp, hnn, hnw]

/-- When any key buffer is malformed for its scheme, the validator
conversion panics (none). -/
theorem convertValidator_eq_none_of_malformed {v : SuiValidatorSummary}
    (h : v.protocol_pubkey_bytes.length ≠ 48 ∨
         v.network_pubkey_bytes.length ≠ 32 ∨
         v.worker_pubkey_bytes.length ≠ 32 ∨
         (∃ b, v.next_epoch_protocol_pubkey_bytes = some b ∧ b.length ≠ 48) ∨
         (∃ b, v.next_epoch_network_pubkey_bytes = some b ∧ b.length ≠ 32) ∨
         (∃ b, v.next_epoch_worker_pubkey_bytes = some b ∧ b.length ≠ 32)) :
    convertValidator v = none := by
  cases hc : convertValidator v with
  | none => rfl
  | some out =>
    obtain ⟨h1, h2, h3, h4, h5, h6, _⟩ := convertValidator_some_spec hc
    rcases h with h | h | h | ⟨b, hb, hlen⟩ | ⟨b, hb, hlen⟩ | ⟨b, hb, hlen⟩
    · exact absurd h1 h
    · exact absurd h2 h
    · exact absurd h3 h
    · exact absurd (h4 b (Option.mem_def.mpr hb)) hlen
    · exact absurd (h5 b (Option.mem_def.mpr hb)) hlen
    · exact absurd (h6 b (Option.mem_def.mpr hb)) hlen

/-- Success or failure of the validator conversion is determined by the six
key-byte fields alone: two records agreeing on them (whatever their
proof-of-possession or other fields) convert with the same outcome. -/
theorem convertValidator_key_determined (w v : SuiValidatorSummary)
    (e1 : w.protocol_pubkey_bytes = v.protocol_pubkey_bytes)
    (e2 : w.network_pubkey_bytes = v.network_pubkey_bytes)
    (e3 : w.worker_pubkey_bytes = v.worker_pubkey_bytes)
    (e4 : w.next_epoch_protocol_pubkey_bytes = v.next_epoch_protocol_pubkey_bytes)
    (e5 : w.next_epoch_network_pubkey_bytes = v.next_epoch_network_pubkey_bytes)
    (e6 : w.next_epoch_worker_pubkey_bytes = v.next_epoch_worker_pubkey_bytes) :
    (convertValidator w).isSome = (convertValidator v).isSome := by
  cases hcv : convertValidator v with
  | some out =>
    obtain ⟨h1, h2, h3, h4, h5, h6, _⟩ := convertValidator_some_spec hcv
    have h1w : w.protocol_pubkey_bytes.length = 48 := by rw [e1]; exact h1
    have h2w : w.network_pubkey_bytes.length = 32 := by rw [e2]; exact h2
    have h3w : w.worker_pubkey_bytes.length = 32 := by rw [e3]; exact h3
    have h4w : ∀ b ∈ w.next_epoch_protocol_pubkey_bytes, b.length = 48 := by
      rw [e4]; exact h4
    have h5w : ∀ b ∈ w.next_epoch_network_pubkey_bytes, b.length = 32 := by
      rw [e5]; exact h5
    have h6w : ∀ b ∈ w.next_epoch_worker_pubkey_bytes, b.length = 32 := by
      rw [e6]; exact h6
    rw [convertValidator_eq_some_of_lengths h1w h2w h3w h4w h5w h6w]
    rfl
  | none =>
    cases hcw : convertValidator w with
    | none => rfl
    | some out =>
      obtain ⟨h1, h2, h3, h4, h5, h6, _⟩ := convertValidator_some_spec hcw
      have h1v : v.protocol_pubkey_bytes.length = 48 := by rw [← e1]; exact h1
      have h2v : v.network_pubkey_bytes.length = 32 := by rw [← e2]; exact h2
      have h3v : v.worker_pubkey_bytes.length = 32 := by rw [← e3]; exact h3
      have h4v : ∀ b ∈ v.next_epoch_protocol_pubkey_bytes, b.length = 48 := by
        rw [← e4]; exact h4
      have h5v : ∀ b ∈ v.next_epoch_network_pubkey_bytes, b.length = 32 := by
        rw [← e5]; exact h5
      have h6v : ∀ b ∈ v.next_epoch_worker_pubkey_bytes, b.length = 32 := by
        rw [← e6]; exact h6
      rw [convertValidator_eq_some_of_lengths h1v h2v h3v h4v h5v h6v] at hcv
      exact Option.noConfusion hcv

/-- Everything the success of the system-state projection guarantees: the
validator list converted element-wise, every scalar field copied unchanged
under its rename, object ids byte-preserved, and the two pair lists
converted pair-wise. -/
theorem systemConvert_some_spec {s : SuiSystemStateSummary} {out : SystemStateSummary}
    (h : systemConvert s = some out) :
    mapOpt convertValidator s.active_validators = some out.active_validators ∧
    out.epoch = s.epoch ∧
    out.protocol_version = s.protocol_version ∧
    out.system_state_version = s.system_state_version ∧
    out.storage_fund_total_object_storage_rebates =
      s.storage_fund_total_object_storage_rebates ∧
    out.storage_fund_non_refundable_balance =
      s.storage_fund_non_refundable_balance ∧
    out.reference_gas_price = s.reference_gas_price ∧
    out.safe_mode = s.safe_mode ∧
    out.safe_mode_storage_rewards = s.safe_mode_storage_rewards ∧
    out.safe_mode_computation_rewards = s.safe_mode_computation_rewards ∧
    out.safe_mode_storage_rebates = s.safe_mode_storage_rebates ∧
    out.safe_mode_non_refundable_storage_fee =
      s.safe_mode_non_refundable_storage_fee ∧
    out.epoch_start_timestamp_ms = s.epoch_start_timestamp_ms ∧
    out.epoch_duration_ms = s.epoch_duration_ms ∧
    out.stake_subsidy_start_epoch = s.stake_subsidy_start_epoch ∧
    out.max_validator_count = s.max_validator_count ∧
    out.min_validator_joining_stake = s.min_validator_joining_stake ∧
    out.validator_low_stake_threshold = s.validator_low_stake_threshold ∧
    out.validator_very_low_stake_threshold =
      s.validator_very_low_stake_threshold ∧
    out.validator_low_stake_grace_period = s.validator_low_stake_grace_period ∧
    out.stake_subsidy_balance = s.stake_subsidy_balance ∧
    out.stake_subsidy_distribution_counter =
      s.stake_subsidy_distribution_counter ∧
    out.stake_subsidy_current_distribution_amount =
      s.stake_subsidy_current_distribution_amount ∧
    out.stake_subsidy_period_length = s.stake_subsidy_period_length ∧
    out.stake_subsidy_decrease_rate = s.stake_subsidy_decrease_rate ∧
    out.total_stake = s.total_stake ∧
    out.pending_active_validators_id =
      objectIdInto s.pending_active_validators_id ∧
    out.pending_active_validators_size = s.pending_active_validators_size ∧
    out.pending_removals = s.pending_removals ∧
    out.staking_pool_mappings_id = objectIdInto s.staking_pool_mappings_id ∧
    out.staking_pool_mappings_size = s.staking_pool_mappings_size ∧
    out.inactive_pools_id = objectIdInto s.inactive_pools_id ∧
    out.inactive_pools_size = s.inactive_pools_size ∧
    out.validator_candidates_id = objectIdInto s.validator_candidates_id ∧
    out.validator_candidates_size = s.validator_candidates_size ∧
    out.at_risk_validators =
      s.at_risk_validators.map (fun p => (suiAddressInto p.1, p.2)) ∧
    out.validator_report_records =
      s.validator_report_records.map
        (fun p => (suiAddressInto p.1, p.2.map suiAddressInto)) := by
  unfold systemConvert at h
  split at h
  · exact Option.noConfusion h
  rename_i validators hm
  cases h
  exact ⟨hm, rfl, rfl, rfl, rfl, rfl, rfl, rfl, rfl, rfl, rfl, rfl, rfl, rfl,
    rfl, rfl, rfl, rfl, rfl, rfl, rfl, rfl, rfl, rfl, rfl, rfl, rfl, rfl,
    rfl, rfl, rfl, rfl, rfl, rfl, rfl, rfl, rfl⟩

theorem isNum_jsonOfOption {α : Type} (f : α → Jv)
    (hf : ∀ a, Jv.isNum (f a) = false) :
    ∀ o : Option α, Jv.isNum (jsonOfOption f o) = false := by
  intro o
  cases o with
  | none => rfl
  | some a => exact hf a

theorem isNum_jsonOfOption_str {α : Type} (g : α → String) (o : Option α) :
    Jv.isNum (jsonOfOption (fun a => Jv.str (g a)) o) = false := by
  cases o <;> rfl

theorem num_ne_jsonOfOption_str {α : Type} (g : α → String) (o : Option α)
    (n : Nat) : Jv.num n ≠ jsonOfOption (fun a => Jv.str (g a)) o := by
  cases o <;> simp [jsonOfOption]

theorem decodeU64Field_activation_epoch {v : ValidatorSummary} (n : Nat)
    (hn : v.staking_pool_activation_epoch = some n) :
    decodeU64Field (jsonOfValidator v) "staking_pool_activation_epoch" =
      some n := by
  show decodeU64Field
    (jsonOfValidator
      { v with staking_pool_activation_epoch := v.staking_pool_activation_epoch })
    "staking_pool_activation_epoch" = some n
  rw [hn]
  exact decodeDecimal_u64ToDecimalString n

theorem decodeU64Field_deactivation_epoch {v : ValidatorSummary} (n : Nat)
    (hn : v.staking_pool_deactivation_epoch = some n) :
    decodeU64Field (jsonOfValidator v) "staking_pool_deactivation_epoch" =
      some n := by
  show decodeU64Field
    (jsonOfValidator
      { v with staking_pool_deactivation_epoch := v.staking_pool_deactivation_epoch })
    "staking_pool_deactivation_epoch" = some n
  rw [hn]
  exact decodeDecimal_u64ToDecimalString n

theorem lookupField_mem : ∀ {fs : List (String × Jv)} {k : String} {j : Jv},
    lookupField fs k = some j → (k, j) ∈ fs := by
  intro fs
  induction fs with
  | nil => intro k j h; exact Option.noConfusion h
  | cons p rest ih =>
    intro k j h
    obtain ⟨k0, v0⟩ := p
    simp only [lookupField] at h
    split at h
    · rename_i heq
      cases h
      subst heq
      exact List.mem_cons_self _ _
    · exact List.mem_cons_of_mem _ (ih h)

/-! ### Claim theorems -/

/-- C1: any accepted format other than JSON makes the handler return the
UnsupportedFormat error (status 400, message from the code) with a result
independent of the State Provider read — the read is never invoked — while
a JSON accept lets the provider result through as the response. -/
theorem claim_C1_format_gate :
    (∀ a : AcceptFormat, a ≠ AcceptFormat.json →
      ∀ s1 s2 : Except RestError SystemStateSummary,
        get_system_state_summary a s1 =
          Except.error (RestError.new 400 "invalid accept type") ∧
        get_system_state_summary a s1 = get_system_state_summary a s2) ∧
    (∀ st : SystemStateSummary,
      get_system_state_summary AcceptFormat.json (Except.ok st) =
        Except.ok ⟨st⟩) := by
  constructor
  · intro a ha s1 s2
    cases a with
    | json => exact absurd rfl ha
    | bcs => exact ⟨rfl, rfl⟩
  · intro st
    rfl

/-- Witness for C1 at the binary (BCS) accept format and two distinct
provider outcomes. -/
theorem claim_C1_format_gate_witness :
    AcceptFormat.bcs ≠ AcceptFormat.json ∧
    (get_system_state_summary AcceptFormat.bcs (Except.error exProviderFailure) =
        Except.error (RestError.new 400 "invalid accept type") ∧
      get_system_state_summary AcceptFormat.bcs (Except.error exProviderFailure) =
        get_system_state_summary AcceptFormat.bcs (Except.error exProviderFailureB)) :=
  ⟨by decide,
   claim_C1_format_gate.1 AcceptFormat.bcs (by decide)
     (Except.error exProviderFailure) (Except.error exProviderFailureB)⟩

/-- C2 counterexample: a validator record whose protocol key bytes have
length 3 (not 48). The From impl decodes keys with .unwrap(), so the
conversion panics — embedded as none: it produces neither a ValidatorSummary
nor a typed MalformedKeyMaterial request error. The claim that the failure
is surfaced as a typed failure of the request and never crashes the process
is therefore false at this input: the code has no error channel in the
conversion at all. -/
theorem claim_C2_counterexample :
    convertValidator exValidatorBadKey = none ∧
    exValidatorBadKey.protocol_pubkey_bytes.length = 3 := ⟨rfl, rfl⟩

/-- C2 amended: malformed key bytes (any of the three current-epoch keys
with the wrong length for its scheme, or any present next-epoch key with
the wrong length) make the conversion panic: it aborts the whole conversion
and never produces a record, so the malformed key is never silently coerced
to a placeholder and the failure is never swallowed. -/
theorem claim_C2_malformed_key_fatal :
    ∀ v : SuiValidatorSummary,
      (v.protocol_pubkey_bytes.length ≠ 48 ∨
       v.network_pubkey_bytes.length ≠ 32 ∨
       v.worker_pubkey_bytes.length ≠ 32 ∨
       (∃ b, v.next_epoch_protocol_pubkey_bytes = some b ∧ b.length ≠ 48) ∨
       (∃ b, v.next_epoch_network_pubkey_bytes = some b ∧ b.length ≠ 32) ∨
       (∃ b, v.next_epoch_worker_pubkey_bytes = some b ∧ b.length ≠ 32)) →
      convertValidator v = none ∧
      ∀ out : ValidatorSummary, convertValidator v ≠ some out := by
  intro v h
  have hn := convertValidator_eq_none_of_malformed h
  refine ⟨hn, fun out hout => ?_⟩
  rw [hn] at hout
  exact Option.noConfusion hout

/-- Witness for the amended C2 at the concrete malformed validator. -/
theorem claim_C2_malformed_key_fatal_witness :
    exValidatorBadKey.protocol_pubkey_bytes.length ≠ 48 ∧
    (convertValidator exValidatorBadKey = none ∧
      ∀ out : ValidatorSummary, convertValidator exValidatorBadKey ≠ some out) :=
  ⟨by decide, claim_C2_malformed_key_fatal exValidatorBadKey (Or.inl (by decide))⟩

/-- C9: a failed State Provider read is propagated unchanged by the
handler — the identical RestError value, no retry, no added context — and
no projection output is produced. -/
theorem claim_C9_provider_failure_propagated :
    ∀ e : RestError,
      get_system_state_summary AcceptFormat.json (Except.error e) =
        Except.error e :=
  fun _ => rfl

/-- C10: the proof-of-possession byte fields are passed through byte-for-byte
with no decoding, and the conversion's success never depends on their
content: replacing both proof-of-possession fields by arbitrary values
leaves success or failure unchanged. -/
theorem claim_C10_pop_passthrough :
    (∀ (v : SuiValidatorSummary) (out : ValidatorSummary),
      convertValidator v = some out →
      out.proof_of_possession_bytes = v.proof_of_possession_bytes ∧
      out.next_epoch_proof_of_possession = v.next_epoch_proof_of_possession) ∧
    (∀ (v : SuiValidatorSummary) (p : List Nat) (q : Option (List Nat)),
      (convertValidator
          { v with proof_of_possession_bytes := p,
                   next_epoch_proof_of_possession := q }).isSome =
        (convertValidator v).isSome) := by
  constructor
  · intro v out h
    obtain ⟨_, _, _, _, _, _, _, _, _, _, hpop, _, _, _, _, _, _, _, _, _, _,
      _, _, _, _, hnpop, _⟩ := convertValidator_some_spec h
    exact ⟨hpop, hnpop⟩
  · intro v p q
    exact convertValidator_key_determined _ _ rfl rfl rfl rfl rfl rfl

/-- Witness for C10 at the concrete valid validator. -/
theorem claim_C10_pop_passthrough_witness :
    convertValidator exValidator = some exOutValidator ∧
    (exOutValidator.proof_of_possession_bytes =
        exValidator.proof_of_possession_bytes ∧
      exOutValidator.next_epoch_proof_of_possession =
        exValidator.next_epoch_proof_of_possession) :=
  ⟨rfl, claim_C10_pop_passthrough.1 exValidator exOutValidator rfl⟩

/-- C3: the projection is a pure structural re-shape: every internal field
reaches the external record under its fixed 1:1 rename with its value
unchanged (key objects carry exactly the internal key bytes, identifiers
keep their bytes, the validator list is the element-wise conversion), no
internal field is dropped, and no external field draws on any other
internal field. -/
theorem claim_C3_field_preservation :
    (∀ (s : SuiSystemStateSummary) (out : SystemStateSummary),
      systemConvert s = some out →
      mapOpt convertValidator s.active_validators = some out.active_validators ∧
      out.epoch = s.epoch ∧
      out.protocol_version = s.protocol_version ∧
      out.system_state_version = s.system_state_version ∧
      out.storage_fund_total_object_storage_rebates =
        s.storage_fund_total_object_storage_rebates ∧
      out.storage_fund_non_refundable_balance =
        s.storage_fund_non_refundable_balance ∧
      out.reference_gas_price = s.reference_gas_price ∧
      out.safe_mode = s.safe_mode ∧
      out.safe_mode_storage_rewards = s.safe_mode_storage_rewards ∧
      out.safe_mode_computation_rewards = s.safe_mode_computation_rewards ∧
      out.safe_mode_storage_rebates = s.safe_mode_storage_rebates ∧
      out.safe_mode_non_refundable_storage_fee =
        s.safe_mode_non_refundable_storage_fee ∧
      out.epoch_start_timestamp_ms = s.epoch_start_timestamp_ms ∧
      out.epoch_duration_ms = s.epoch_duration_ms ∧
      out.stake_subsidy_start_epoch = s.stake_subsidy_start_epoch ∧
      out.max_validator_count = s.max_validator_count ∧
      out.min_validator_joining_stake = s.min_validator_joining_stake ∧
      out.validator_low_stake_threshold = s.validator_low_stake_threshold ∧
      out.validator_very_low_stake_threshold =
        s.validator_very_low_stake_threshold ∧
      out.validator_low_stake_grace_period =
        s.validator_low_stake_grace_period ∧
      out.stake_subsidy_balance = s.stake_subsidy_balance ∧
      out.stake_subsidy_distribution_counter =
        s.stake_subsidy_distribution_counter ∧
      out.stake_subsidy_current_distribution_amount =
        s.stake_subsidy_current_distribution_amount ∧
      out.stake_subsidy_period_length = s.stake_subsidy_period_length ∧
      out.stake_subsidy_decrease_rate = s.stake_subsidy_decrease_rate ∧
      out.total_stake = s.total_stake ∧
      out.pending_active_validators_id =
        objectIdInto s.pending_active_validators_id ∧
      out.pending_active_validators_size = s.pending_active_validators_size ∧
      out.pending_removals = s.pending_removals ∧
      out.staking_pool_mappings_id = objectIdInto s.staking_pool_mappings_id ∧
      out.staking_pool_mappings_size = s.staking_pool_mappings_size ∧
      out.inactive_pools_id = objectIdInto s.inactive_pools_id ∧
      out.inactive_pools_size = s.inactive_pools_size ∧
      out.validator_candidates_id = objectIdInto s.validator_candidates_id ∧
      out.validator_candidates_size = s.validator_candidates_size ∧
      out.at_risk_validators =
        s.at_risk_validators.map (fun p => (suiAddressInto p.1, p.2)) ∧
      out.validator_report_records =
        s.validator_report_records.map
          (fun p => (suiAddressInto p.1, p.2.map suiAddressInto))) ∧
    (∀ (v : SuiValidatorSummary) (vout : ValidatorSummary),
      convertValidator v = some vout →
      vout.address = suiAddressInto v.sui_address ∧
      vout.protocol_public_key.bytes = v.protocol_pubkey_bytes ∧
      vout.network_public_key.bytes = v.network_pubkey_bytes ∧
      vout.worker_public_key.bytes = v.worker_pubkey_bytes ∧
      vout.proof_of_possession_bytes = v.proof_of_possession_bytes ∧
      vout.name = v.name ∧
      vout.description = v.description ∧
      vout.image_url = v.image_url ∧
      vout.project_url = v.project_url ∧
      vout.net_address = v.net_address ∧
      vout.p2p_address = v.p2p_address ∧
      vout.primary_address = v.primary_address ∧
      vout.worker_address = v.worker_address ∧
      vout.next_epoch_protocol_public_key.isSome =
        v.next_epoch_protocol_pubkey_bytes.isSome ∧
      vout.next_epoch_network_public_key.isSome =
        v.next_epoch_network_pubkey_bytes.isSome ∧
      vout.next_epoch_worker_public_key.isSome =
        v.next_epoch_worker_pubkey_bytes.isSome ∧
      (∀ k, vout.next_epoch_protocol_public_key = some k →
        v.next_epoch_protocol_pubkey_bytes = some k.bytes) ∧
      (∀ k, vout.next_epoch_network_public_key = some k →
        v.next_epoch_network_pubkey_bytes = some k.bytes) ∧
      (∀ k, vout.next_epoch_worker_public_key = some k →
        v.next_epoch_worker_pubkey_bytes = some k.bytes) ∧
      vout.next_epoch_proof_of_possession = v.next_epoch_proof_of_possession ∧
      vout.next_epoch_net_address = v.next_epoch_net_address ∧
      vout.next_epoch_p2p_address = v.next_epoch_p2p_address ∧
      vout.next_epoch_primary_address = v.next_epoch_primary_address ∧
      vout.next_epoch_worker_address = v.next_epoch_worker_address ∧
      vout.voting_power = v.voting_power ∧
      vout.operation_cap_id = objectIdInto v.operation_cap_id ∧
      vout.gas_price = v.gas_price ∧
      vout.commission_rate = v.commission_rate ∧
      vout.next_epoch_stake = v.next_epoch_stake ∧
      vout.next_epoch_gas_price = v.next_epoch_gas_price ∧
      vout.next_epoch_commission_rate = v.next_epoch_commission_rate ∧
      vout.staking_pool_id = objectIdInto v.staking_pool_id ∧
      vout.staking_pool_activation_epoch = v.staking_pool_activation_epoch ∧
      vout.staking_pool_deactivation_epoch =
        v.staking_pool_deactivation_epoch ∧
      vout.staking_pool_sui_balance = v.staking_pool_sui_balance ∧
      vout.rewards_pool = v.rewards_pool ∧
      vout.pool_token_balance = v.pool_token_balance ∧
      vout.pending_stake = v.pending_stake ∧
      vout.pending_total_sui_withdraw = v.pending_total_sui_withdraw ∧
      vout.pending_pool_token_withdraw = v.pending_pool_token_withdraw ∧
      vout.exchange_rates_id = objectIdInto v.exchange_rates_id ∧
      vout.exchange_rates_size = v.exchange_rates_size) := by
  constructor
  · intro s out h
    exact systemConvert_some_spec h
  · intro v vout h
    exact (convertValidator_some_spec h).2.2.2.2.2.2

/-- Witness for C3 at the concrete state and validator. -/
theorem claim_C3_field_preservation_witness :
    systemConvert exSystem = some exOutSystem ∧
    exOutSystem.epoch = exSystem.epoch ∧
    exOutSystem.stake_subsidy_decrease_rate =
      exSystem.stake_subsidy_decrease_rate ∧
    convertValidator exValidator = some exOutValidator ∧
    exOutValidator.address = suiAddressInto exValidator.sui_address :=
  ⟨rfl,
   (claim_C3_field_preservation.1 exSystem exOutSystem rfl).2.1,
   (claim_C3_field_preservation.1 exSystem exOutSystem
     rfl).2.2.2.2.2.2.2.2.2.2.2.2.2.2.2.2.2.2.2.2.2.2.2.2.1,
   rfl,
   (claim_C3_field_preservation.2 exValidator exOutValidator rfl).1⟩

/-- C4: presence or absence of every optional next-epoch field is preserved
exactly — a next-epoch key is present externally if and only if the bytes
are present internally, present keys carry exactly the internal bytes, and
the optional proof-of-possession and the four next-epoch addresses pass
through unchanged; an absent field is never defaulted to an empty value. -/
theorem claim_C4_next_epoch_presence :
    ∀ (v : SuiValidatorSummary) (out : ValidatorSummary),
      convertValidator v = some out →
      out.next_epoch_protocol_public_key.isSome =
        v.next_epoch_protocol_pubkey_bytes.isSome ∧
      out.next_epoch_network_public_key.isSome =
        v.next_epoch_network_pubkey_bytes.isSome ∧
      out.next_epoch_worker_public_key.isSome =
        v.next_epoch_worker_pubkey_bytes.isSome ∧
      (∀ k, out.next_epoch_protocol_public_key = some k →
        v.next_epoch_protocol_pubkey_bytes = some k.bytes) ∧
      (∀ k, out.next_epoch_network_public_key = some k →
        v.next_epoch_network_pubkey_bytes = some k.bytes) ∧
      (∀ k, out.next_epoch_worker_public_key = some k →
        v.next_epoch_worker_pubkey_bytes = some k.bytes) ∧
      out.next_epoch_proof_of_possession = v.next_epoch_proof_of_possession ∧
      out.next_epoch_net_address = v.next_epoch_net_address ∧
      out.next_epoch_p2p_address = v.next_epoch_p2p_address ∧
      out.next_epoch_primary_address = v.next_epoch_primary_address ∧
      out.next_epoch_worker_address = v.next_epoch_worker_address := by
  intro v out h
  obtain ⟨_, _, _, _, _, _, _, _, _, _, _, _, _, _, _, _, _, _, _,
    hiso1, hiso2, hiso3, hc1, hc2, hc3, hnpop, ha1, ha2, ha3, ha4, _⟩ :=
    convertValidator_some_spec h
  exact ⟨hiso1, hiso2, hiso3, hc1, hc2, hc3, hnpop, ha1, ha2, ha3, ha4⟩

/-- Witness for C4 at the all-absent and the all-present validators. -/
theorem claim_C4_next_epoch_presence_witness :
    convertValidator exValidator = some exOutValidator ∧
    exOutValidator.next_epoch_protocol_public_key.isSome =
      exValidator.next_epoch_protocol_pubkey_bytes.isSome ∧
    convertValidator exValidatorNext = some exOutValidatorNext ∧
    exOutValidatorNext.next_epoch_proof_of_possession =
      exValidatorNext.next_epoch_proof_of_possession :=
  ⟨rfl,
   (claim_C4_next_epoch_presence exValidator exOutValidator rfl).1,
   rfl,
   (claim_C4_next_epoch_presence exValidatorNext exOutValidatorNext
     rfl).2.2.2.2.2.2.1⟩

/-- C5: the external active-validator list converts the internal one
element-wise in the original order: same length, and the element at every
index is the conversion of the internal element at that index. -/
theorem claim_C5_elementwise_order :
    ∀ (s : SuiSystemStateSummary) (out : SystemStateSummary),
      systemConvert s = some out →
      out.active_validators.length = s.active_validators.length ∧
      ∀ i (hi : i < s.active_validators.length)
        (ho : i < out.active_validators.length),
        convertValidator (s.active_validators.get ⟨i, hi⟩) =
          some (out.active_validators.get ⟨i, ho⟩) := by
  intro s out h
  have hm := (systemConvert_some_spec h).1
  exact ⟨mapOpt_some_length hm, fun i hi ho => mapOpt_some_get hm i hi ho⟩

/-- Witness for C5 at the concrete two-validator state. -/
theorem claim_C5_elementwise_order_witness :
    systemConvert exSystem = some exOutSystem ∧
    exOutSystem.active_validators.length =
      exSystem.active_validators.length ∧
    convertValidator (exSystem.active_validators.get ⟨1, by decide⟩) =
      some (exOutSystem.active_validators.get ⟨1, by decide⟩) :=
  ⟨rfl,
   (claim_C5_elementwise_order exSystem exOutSystem rfl).1,
   (claim_C5_elementwise_order exSystem exOutSystem rfl).2 1
     (by decide) (by decide)⟩

/-- C6: the two address-keyed pair lists are converted pair-wise in source
order: each entry pairs the byte-preserving converted address with the
unchanged count (or the element-wise converted report list), nothing is
added, removed, or re-sorted. -/
theorem claim_C6_pairwise_order :
    ∀ (s : SuiSystemStateSummary) (out : SystemStateSummary),
      systemConvert s = some out →
      out.at_risk_validators =
        s.at_risk_validators.map (fun p => (suiAddressInto p.1, p.2)) ∧
      out.at_risk_validators.length = s.at_risk_validators.length ∧
      out.validator_report_records =
        s.validator_report_records.map
          (fun p => (suiAddressInto p.1, p.2.map suiAddressInto)) ∧
      out.validator_report_records.length =
        s.validator_report_records.length := by
  intro s out h
  have hs := systemConvert_some_spec h
  obtain ⟨_, _, _, _, _, _, _, _, _, _, _, _, _, _, _, _, _, _, _, _, _, _,
    _, _, _, _, _, _, _, _, _, _, _, _, _, hrisk, hrep⟩ := hs
  refine ⟨hrisk, ?_, hrep, ?_⟩
  · rw [hrisk, List.length_map]
  · rw [hrep, List.length_map]

/-- Witness for C6 at the concrete state. -/
theorem claim_C6_pairwise_order_witness :
    systemConvert exSystem = some exOutSystem ∧
    exOutSystem.at_risk_validators =
      exSystem.at_risk_validators.map (fun p => (suiAddressInto p.1, p.2)) ∧
    exOutSystem.validator_report_records =
      exSystem.validator_report_records.map
        (fun p => (suiAddressInto p.1, p.2.map suiAddressInto)) :=
  ⟨rfl,
   (claim_C6_pairwise_order exSystem exOutSystem rfl).1,
   (claim_C6_pairwise_order exSystem exOutSystem rfl).2.2.1⟩

/-- C7: the decimal-string encoding of 64-bit values is exact for every
value below 2 to the 64 (the decoded string yields back the identical
integer), and every u64-typed field of both wire records is emitted as such
a decimal string — its decode recovers exactly the field's value, which
would fail on a native number literal — including the u64 elements of
pending_removals and the optional staking-pool epochs when present. -/
theorem claim_C7_u64_decimal_strings :
    (∀ n : Nat, n < 2 ^ 64 → decodeDecimal (u64ToDecimalString n) = some n) ∧
    (∀ s : SystemStateSummary,
      decodeU64Field (jsonOfSystem s) "epoch" = some s.epoch ∧
      decodeU64Field (jsonOfSystem s) "protocol_version" =
        some s.protocol_version ∧
      decodeU64Field (jsonOfSystem s) "system_state_version" =
        some s.system_state_version ∧
      decodeU64Field (jsonOfSystem s) "storage_fund_total_object_storage_rebates" =
        some s.storage_fund_total_object_storage_rebates ∧
      decodeU64Field (jsonOfSystem s) "storage_fund_non_refundable_balance" =
        some s.storage_fund_non_refundable_balance ∧
      decodeU64Field (jsonOfSystem s) "reference_gas_price" =
        some s.reference_gas_price ∧
      decodeU64Field (jsonOfSystem s) "safe_mode_storage_rewards" =
        some s.safe_mode_storage_rewards ∧
      decodeU64Field (jsonOfSystem s) "safe_mode_computation_rewards" =
        some s.safe_mode_computation_rewards ∧
      decodeU64Field (jsonOfSystem s) "safe_mode_storage_rebates" =
        some s.safe_mode_storage_rebates ∧
      decodeU64Field (jsonOfSystem s) "safe_mode_non_refundable_storage_fee" =
        some s.safe_mode_non_refundable_storage_fee ∧
      decodeU64Field (jsonOfSystem s) "epoch_start_timestamp_ms" =
        some s.epoch_start_timestamp_ms ∧
      decodeU64Field (jsonOfSystem s) "epoch_duration_ms" =
        some s.epoch_duration_ms ∧
      decodeU64Field (jsonOfSystem s) "stake_subsidy_start_epoch" =
        some s.stake_subsidy_start_epoch ∧
      decodeU64Field (jsonOfSystem s) "max_validator_count" =
        some s.max_validator_count ∧
      decodeU64Field (jsonOfSystem s) "min_validator_joining_stake" =
        some s.min_validator_joining_stake ∧
      decodeU64Field (jsonOfSystem s) "validator_low_stake_threshold" =
        some s.validator_low_stake_threshold ∧
      decodeU64Field (jsonOfSystem s) "validator_very_low_stake_threshold" =
        some s.validator_very_low_stake_threshold ∧
      decodeU64Field (jsonOfSystem s) "validator_low_stake_grace_period" =
        some s.validator_low_stake_grace_period ∧
      decodeU64Field (jsonOfSystem s) "stake_subsidy_balance" =
        some s.stake_subsidy_balance ∧
      decodeU64Field (jsonOfSystem s) "stake_subsidy_distribution_counter" =
        some s.stake_subsidy_distribution_counter ∧
      decodeU64Field (jsonOfSystem s) "stake_subsidy_current_distribution_amount" =
        some s.stake_subsidy_current_distribution_amount ∧
      decodeU64Field (jsonOfSystem s) "stake_subsidy_period_length" =
        some s.stake_subsidy_period_length ∧
      decodeU64Field (jsonOfSystem s) "total_stake" = some s.total_stake ∧
      decodeU64Field (jsonOfSystem s) "pending_active_validators_size" =
        some s.pending_active_validators_size ∧
      decodeU64Field (jsonOfSystem s) "staking_pool_mappings_size" =
        some s.staking_pool_mappings_size ∧
      decodeU64Field (jsonOfSystem s) "inactive_pools_size" =
        some s.inactive_pools_size ∧
      decodeU64Field (jsonOfSystem s) "validator_candidates_size" =
        some s.validator_candidates_size ∧
      getField (jsonOfSystem s) "pending_removals" =
        some (Jv.arr (s.pending_removals.map
          (fun n => Jv.str (u64ToDecimalString n))))) ∧
    (∀ v : ValidatorSummary,
      decodeU64Field (jsonOfValidator v) "voting_power" = some v.voting_power ∧
      decodeU64Field (jsonOfValidator v) "gas_price" = some v.gas_price ∧
      decodeU64Field (jsonOfValidator v) "commission_rate" =
        some v.commission_rate ∧
      decodeU64Field (jsonOfValidator v) "next_epoch_stake" =
        some v.next_epoch_stake ∧
      decodeU64Field (jsonOfValidator v) "next_epoch_gas_price" =
        some v.next_epoch_gas_price ∧
      decodeU64Field (jsonOfValidator v) "next_epoch_commission_rate" =
        some v.next_epoch_commission_rate ∧
      decodeU64Field (jsonOfValidator v) "staking_pool_sui_balance" =
        some v.staking_pool_sui_balance ∧
      decodeU64Field (jsonOfValidator v) "rewards_pool" = some v.rewards_pool ∧
      decodeU64Field (jsonOfValidator v) "pool_token_balance" =
        some v.pool_token_balance ∧
      decodeU64Field (jsonOfValidator v) "pending_stake" =
        some v.pending_stake ∧
      decodeU64Field (jsonOfValidator v) "pending_total_sui_withdraw" =
        some v.pending_total_sui_withdraw ∧
      decodeU64Field (jsonOfValidator v) "pending_pool_token_withdraw" =
        some v.pending_pool_token_withdraw ∧
      decodeU64Field (jsonOfValidator v) "exchange_rates_size" =
        some v.exchange_rates_size ∧
      (∀ n, v.staking_pool_activation_epoch = some n →
        decodeU64Field (jsonOfValidator v) "staking_pool_activation_epoch" =
          some n) ∧
      (∀ n, v.staking_pool_deactivation_epoch = some n →
        decodeU64Field (jsonOfValidator v) "staking_pool_deactivation_epoch" =
          some n)) := by
  refine ⟨fun n _ => decodeDecimal_u64ToDecimalString n, fun s => ?_, fun v => ?_⟩
  · exact ⟨decodeDecimal_u64ToDecimalString s.epoch,
      decodeDecimal_u64ToDecimalString s.protocol_version,
      decodeDecimal_u64ToDecimalString s.system_state_version,
      decodeDecimal_u64ToDecimalString s.storage_fund_total_object_storage_rebates,
      decodeDecimal_u64ToDecimalString s.storage_fund_non_refundable_balance,
      decodeDecimal_u64ToDecimalString s.reference_gas_price,
      decodeDecimal_u64ToDecimalString s.safe_mode_storage_rewards,
      decodeDecimal_u64ToDecimalString s.safe_mode_computation_rewards,
      decodeDecimal_u64ToDecimalString s.safe_mode_storage_rebates,
      decodeDecimal_u64ToDecimalString s.safe_mode_non_refundable_storage_fee,
      decodeDecimal_u64ToDecimalString s.epoch_start_timestamp_ms,
      decodeDecimal_u64ToDecimalString s.epoch_duration_ms,
      decodeDecimal_u64ToDecimalString s.stake_subsidy_start_epoch,
      decodeDecimal_u64ToDecimalString s.max_validator_count,
      decodeDecimal_u64ToDecimalString s.min_validator_joining_stake,
      decodeDecimal_u64ToDecimalString s.validator_low_stake_threshold,
      decodeDecimal_u64ToDecimalString s.validator_very_low_stake_threshold,
      decodeDecimal_u64ToDecimalString s.validator_low_stake_grace_period,
      decodeDecimal_u64ToDecimalString s.stake_subsidy_balance,
      decodeDecimal_u64ToDecimalString s.stake_subsidy_distribution_counter,
      decodeDecimal_u64ToDecimalString s.stake_subsidy_current_distribution_amount,
      decodeDecimal_u64ToDecimalString s.stake_subsidy_period_length,
      decodeDecimal_u64ToDecimalString s.total_stake,
      decodeDecimal_u64ToDecimalString s.pending_active_validators_size,
      decodeDecimal_u64ToDecimalString s.staking_pool_mappings_size,
      decodeDecimal_u64ToDecimalString s.inactive_pools_size,
      decodeDecimal_u64ToDecimalString s.validator_candidates_size,
      rfl⟩
  · exact ⟨decodeDecimal_u64ToDecimalString v.voting_power,
      decodeDecimal_u64ToDecimalString v.gas_price,
      decodeDecimal_u64ToDecimalString v.commission_rate,
      decodeDecimal_u64ToDecimalString v.next_epoch_stake,
      decodeDecimal_u64ToDecimalString v.next_epoch_gas_price,
      decodeDecimal_u64ToDecimalString v.next_epoch_commission_rate,
      decodeDecimal_u64ToDecimalString v.staking_pool_sui_balance,
      decodeDecimal_u64ToDecimalString v.rewards_pool,
      decodeDecimal_u64ToDecimalString v.pool_token_balance,
      decodeDecimal_u64ToDecimalString v.pending_stake,
      decodeDecimal_u64ToDecimalString v.pending_total_sui_withdraw,
      decodeDecimal_u64ToDecimalString v.pending_pool_token_withdraw,
      decodeDecimal_u64ToDecimalString v.exchange_rates_size,
      fun n hn => decodeU64Field_activation_epoch n hn,
      fun n hn => decodeU64Field_deactivation_epoch n hn⟩

/-- Witness for C7 at the maximum u64 value and the concrete records. -/
theorem claim_C7_u64_decimal_strings_witness :
    18446744073709551615 < 2 ^ 64 ∧
    decodeDecimal (u64ToDecimalString 18446744073709551615) =
      some 18446744073709551615 ∧
    decodeU64Field (jsonOfSystem exOutSystem) "safe_mode_storage_rewards" =
      some exOutSystem.safe_mode_storage_rewards ∧
    decodeU64Field (jsonOfValidator exOutValidator) "voting_power" =
      some exOutValidator.voting_power :=
  ⟨by decide,
   claim_C7_u64_decimal_strings.1 18446744073709551615 (by decide),
   (claim_C7_u64_decimal_strings.2.1 exOutSystem).2.2.2.2.2.2.1,
   (claim_C7_u64_decimal_strings.2.2 exOutValidator).1⟩

/-- C8 counterexample: the decrease-rate field's carrier is a 16-bit
integer, not a 10000-bounded quantity: an internal state carrying the value
20000 converts and serializes without complaint, so the field's value is
not bounded by 10000 as the claim states. -/
theorem claim_C8_counterexample :
    systemConvert exSystem20k = some exOutSystem20k ∧
    exOutSystem20k.stake_subsidy_decrease_rate = 20000 ∧
    getField (jsonOfSystem exOutSystem20k) "stake_subsidy_decrease_rate" =
      some (Jv.num 20000) ∧
    10000 < exOutSystem20k.stake_subsidy_decrease_rate :=
  ⟨rfl, rfl, rfl, by decide⟩

/-- C8 amended: stake_subsidy_decrease_rate is the single integer field
emitted as a native number literal — every other field of both wire records
is a string, boolean, array, or null — and its u16 carrier bounds it below
65536 (the 10000 basis-point bound is an upstream invariant the projection
does not enforce), so its value is always safely representable as a native
number (below 2 to the 53). -/
theorem claim_C8_decrease_rate_native :
    (∀ s : SystemStateSummary,
      getField (jsonOfSystem s) "stake_subsidy_decrease_rate" =
        some (Jv.num s.stake_subsidy_decrease_rate) ∧
      (∀ (k : String) (j : Jv), getField (jsonOfSystem s) k = some j →
        Jv.isNum j = true →
        k = "stake_subsidy_decrease_rate" ∧
        j = Jv.num s.stake_subsidy_decrease_rate) ∧
      (s.stake_subsidy_decrease_rate < 65536 →
        s.stake_subsidy_decrease_rate < 2 ^ 53)) ∧
    (∀ (v : ValidatorSummary) (k : String) (j : Jv),
      getField (jsonOfValidator v) k = some j → Jv.isNum j = false) := by
  constructor
  · intro s
    refine ⟨rfl, ?_, fun h => Nat.lt_trans h (by norm_num)⟩
    intro k j hk hnum
    have hmem : (k, j) ∈
        (match jsonOfSystem s with
          | Jv.obj fields => fields
          | _ => []) := lookupField_mem hk
    cases j with
    | num n =>
      simp only [jsonOfSystem, List.mem_cons, List.not_mem_nil,
        Prod.mk.injEq, reduceCtorEq, and_false, false_and, false_or,
        or_false, Jv.num.injEq] at hmem
      obtain ⟨rfl, rfl⟩ := hmem
      exact ⟨rfl, rfl⟩
    | null => simp [Jv.isNum] at hnum
    | bool b => simp [Jv.isNum] at hnum
    | str st => simp [Jv.isNum] at hnum
    | arr xs => simp [Jv.isNum] at hnum
    | obj fs => simp [Jv.isNum] at hnum
  · intro v k j hk
    have hmem : (k, j) ∈
        (match jsonOfValidator v with
          | Jv.obj fields => fields
          | _ => []) := lookupField_mem hk
    cases j with
    | num n =>
      simp only [jsonOfValidator, List.mem_cons, List.not_mem_nil,
        Prod.mk.injEq, reduceCtorEq, and_false, false_and, false_or,
        or_false, num_ne_jsonOfOption_str _ _ n] at hmem
    | null => rfl
    | bool b => rfl
    | str st => rfl
    | arr xs => rfl
    | obj fs => rfl

/-- Witness for the amended C8 at the concrete records. -/
theorem claim_C8_decrease_rate_native_witness :
    getField (jsonOfSystem exOutSystem) "stake_subsidy_decrease_rate" =
      some (Jv.num exOutSystem.stake_subsidy_decrease_rate) ∧
    Jv.isNum (Jv.num exOutSystem.stake_subsidy_decrease_rate) = true ∧
    ("stake_subsidy_decrease_rate" : String) = "stake_subsidy_decrease_rate" ∧
    exOutSystem.stake_subsidy_decrease_rate < 65536 ∧
    exOutSystem.stake_subsidy_decrease_rate < 2 ^ 53 ∧
    Jv.isNum (Jv.str exOutValidator.name) = false :=
  ⟨(claim_C8_decrease_rate_native.1 exOutSystem).1,
   rfl,
   ((claim_C8_decrease_rate_native.1 exOutSystem).2.1
     "stake_subsidy_decrease_rate"
     (Jv.num exOutSystem.stake_subsidy_decrease_rate) rfl rfl).1,
   by decide,
   (claim_C8_decrease_rate_native.1 exOutSystem).2.2 (by decide),
   claim_C8_decrease_rate_native.2 exOutValidator "name"
     (Jv.str exOutValidator.name) rfl⟩

end SuiSystem
